import Mathlib

/-!
Shallow embedding of `categorical_aggregate2d` from
`src/holoviews/element/util.py` together with its helper `reduce_fn`.

A HoloViews `Dataset` row assigns one value to every declared dimension
(key dimensions first, then value dimensions).  Cell values are dynamic
Python values; here they are modelled by the inductive type `Val`
covering the cases exercised by the operation: strings, numbers (`Rat`
standing for Python ints/floats) and the NaN null marker.

Core `Dataset` interface methods (`dimension_values`, `groupby`,
`aggregate`, `concatenate`) and `sort_topologically` are repository code
that is not under `src/`; they are modelled from the spec where marked.
-/

namespace CatAgg2D

/-- A dynamic cell value: string, number, or the NaN null marker. -/
inductive Val where
  | str : String → Val
  | num : Rat → Val
  | nan : Val
deriving DecidableEq, Repr

/-- Embedding of `is_nan` from `holoviews.core.util`: only the float NaN
marker is "not a number"; strings and numbers are not. -/
def is_nan : Val → Bool
  | .nan => true
  | _ => false

/-- Constructor rank used to totalise the comparison between values of
different runtime types (numbers sort before strings, NaN last, matching
numpy's sort placing NaN at the end of a float column). -/
def Val.rank : Val → Nat
  | .num _ => 0
  | .str _ => 1
  | .nan => 2

/-- Boolean lexicographic order on character lists (models the ordering
numpy uses for string columns). -/
def charListLt : List Char → List Char → Bool
  | [], [] => false
  | [], _ :: _ => true
  | _ :: _, [] => false
  | a :: as, b :: bs =>
    if a < b then true else if b < a then false else charListLt as bs

/-- Boolean string comparison via the underlying character lists. -/
def strLtB (x y : String) : Bool := charListLt x.data y.data

/-- Total boolean `≤` on `Val`, modelling the comparison `np.sort`
applies to a (homogeneous) column. -/
def vle (a b : Val) : Bool :=
  match a, b with
  | .num x, .num y => !(Rat.blt y x)
  | .str x, .str y => !(strLtB y x)
  | _, _ => decide (a.rank ≤ b.rank)

/-- Insert into a `vle`-sorted list (auxiliary for `sortVals`). -/
def insertV (a : Val) : List Val → List Val
  | [] => [a]
  | b :: bs => if vle a b then a :: b :: bs else b :: insertV a bs

/-- Insertion sort modelling `np.sort` (ascending) on a value column. -/
def sortVals : List Val → List Val
  | [] => []
  | a :: as => insertV a (sortVals as)

/-- First-occurrence deduplication, auxiliary accumulator form. -/
def uniqueFOAux {α : Type} [DecidableEq α] : List α → List α → List α
  | [], _ => []
  | a :: as, seen =>
    if a ∈ seen then uniqueFOAux as seen else a :: uniqueFOAux as (a :: seen)

/-- Modelled from the spec: `Dataset.dimension_values(dim, expand=False)`
(core code not under `src/`) returns the unique values of a dimension
"preserving first-occurrence order from the source". -/
def uniqueFO {α : Type} [DecidableEq α] (l : List α) : List α := uniqueFOAux l []

/-- A tabular (sparse) dataset: declared key and value dimensions, rows
(each row one `Val` per dimension, key columns first), and whether the
backing interface is a gridded one. -/
structure Table where
  kdims : List String
  vdims : List String
  rows : List (List Val)
  gridded : Bool
deriving DecidableEq, Repr

/-- Value of a row in the first declared dimension (the `xdim` column). -/
def rowX (r : List Val) : Val := r.getD 0 .nan

/-- Value of a row in the second declared dimension (the `ydim` column). -/
def rowY (r : List Val) : Val := r.getD 1 .nan

/-- `d1keys = obj.dimension_values(xdim, False)`: unique x values in
first-occurrence order. -/
def d1keysOf (obj : Table) : List Val := uniqueFO (obj.rows.map rowX)

/-- `d2keys = obj.dimension_values(ydim, False)`: unique y values in
first-occurrence order. -/
def d2keysOf (obj : Table) : List Val := uniqueFO (obj.rows.map rowY)

/-- Modelled from the spec: `obj.groupby(xdim, ...)` (core code not under
`src/`) partitions the rows by x value; groups appear in first-occurrence
order of their x value and keep the source row order. -/
def groupsOf (obj : Table) : List (List (List Val)) :=
  (d1keysOf obj).map (fun k => obj.rows.filter (fun r => rowX r == k))

/-- The y-value sequence of each x-partition
(`group.dimension_values(ydim)` for each group, duplicates kept). -/
def groupYsOf (obj : Table) : List (List Val) :=
  (groupsOf obj).map (fun g => g.map rowY)

/-- The consecutive pairs `(vals[i], vals[i+1])` of a partition's
y sequence — the loop `for i in range(len(vals)-1)` of `_process`. -/
def consecutivePairs : List Val → List (Val × Val)
  | a :: b :: rest => (a, b) :: consecutivePairs (b :: rest)
  | _ => []

/-- `OrderedDict` assignment `d[k] = v`: replaces the value at an
existing key in place, otherwise appends the new entry at the end. -/
def setEntry (k : Val) (v : List Val) :
    List (Val × List Val) → List (Val × List Val)
  | [] => [(k, v)]
  | e :: rest => if e.1 = k then (k, v) :: rest else e :: setEntry k v rest

/-- One iteration of the `for group in grouped` loop of `_process`
(lines 111-119): a singleton partition assigns `orderings[vals[0]] = []`,
otherwise each consecutive pair assigns `orderings[p1] = [p2]`
(overwriting any previous entry for `p1`). -/
def addGroupOrderings (od : List (Val × List Val)) (vals : List Val) :
    List (Val × List Val) :=
  match vals with
  | [v] => setEntry v [] od
  | vs => (consecutivePairs vs).foldl (fun acc p => setEntry p.1 [p.2] acc) od

/-- The `orderings` OrderedDict after processing every partition. -/
def buildOrderings (gs : List (List Val)) : List (Val × List Val) :=
  gs.foldl addGroupOrderings []

/-- The precedence graph `orderings` built by `_process` for a dataset. -/
def orderingsOf (obj : Table) : List (Val × List Val) :=
  buildOrderings (groupYsOf obj)

/-- Successors of a node in the precedence graph. -/
def successors (g : List (Val × List Val)) (a : Val) : List Val :=
  match g.find? (fun e => e.1 == a) with
  | some e => e.2
  | none => []

/-- The node set of the precedence graph, in discovery order. -/
def topoNodes (g : List (Val × List Val)) : List Val :=
  uniqueFO ((g.map (fun e => e.1 :: e.2)).flatten)

/-- Kahn-style level extraction: repeatedly emit the nodes with no
incoming edge from the remaining nodes.  Nodes on a cycle are never
emitted (the spec leaves cyclic behaviour unspecified). -/
def kahnLevels (g : List (Val × List Val)) :
    Nat → List Val → List (List Val)
  | 0, _ => []
  | fuel + 1, nodes =>
    let srcs := nodes.filter
      (fun b => !(nodes.any (fun a => (successors g a).contains b)))
    if srcs.isEmpty then []
    else srcs :: kahnLevels g fuel (nodes.filter (fun b => !(srcs.contains b)))

/-- Modelled from the spec: `sort_topologically` (core code not under
`src/`) computes "a topological ordering of the precedence graph", as a
list of levels, such that an entry `orderings[p1] = [p2]` places `p1`
before `p2` ("value i precedes value i+1"). -/
def sort_topologically (g : List (Val × List Val)) : List (List Val) :=
  kahnLevels g (topoNodes g).length (topoNodes g)

/-- The Boolean `is_sorted` of `_process` (lines 110-119): the unique x
values are already in `np.sort` order, and every partition of length ≠ 1
has its y sequence in `np.sort` order. -/
def isSortedOf (obj : Table) : Bool :=
  (sortVals (d1keysOf obj) == d1keysOf obj) &&
  (groupYsOf obj).all (fun vals => vals.length == 1 || sortVals vals == vals)

/-- The final global ordering of y values (`d2keys` after lines 120-123):
the natural sort when `is_sorted`, otherwise the flattened topological
ordering of the precedence graph. -/
def computeD2 (obj : Table) : List Val :=
  if isSortedOf obj then sortVals (d2keysOf obj)
  else (sort_topologically (orderingsOf obj)).flatten

/-- Embedding of `reduce_fn` (`src/holoviews/element/util.py` lines
48-56): scan the values and return the first one that is not NaN, else
NaN. -/
def reduce_fn : List Val → Val
  | [] => .nan
  | v :: vs => if is_nan v then reduce_fn vs else v

/-- The flattened `cartesian_product([d2keys, d1keys])` coordinate table
(lines 126-127): y-major order, x varying fastest. -/
def densePairs (obj : Table) : List (Val × Val) :=
  ((computeD2 obj).map (fun y => (d1keysOf obj).map (fun x => (x, y)))).flatten

/-- Number of value dimensions (`len(dims) - 2`). -/
def nvdimsOf (obj : Table) : Nat := obj.kdims.length + obj.vdims.length - 2

/-- The dense NaN-filled rows (`dense_data`, lines 127-133): one row per
cross-product coordinate pair, every value dimension set to NaN. -/
def denseRowsOf (obj : Table) : List (List Val) :=
  (densePairs obj).map (fun p => p.1 :: p.2 :: List.replicate (nvdimsOf obj) Val.nan)

/-- `concat_data` (line 134): the dense NaN table concatenated BEFORE the
original sparse rows. -/
def concatRowsOf (obj : Table) : List (List Val) := denseRowsOf obj ++ obj.rows

/-- Modelled from the spec: the group keys of
`concat_data.aggregate([xdim, ydim], reduce_fn)` (core code not under
`src/`) — the distinct `(x, y)` pairs in first-occurrence order. -/
def aggPairsOf (obj : Table) : List (Val × Val) :=
  uniqueFO ((concatRowsOf obj).map (fun r => (rowX r, rowY r)))

/-- Modelled from the spec: the aggregated column of the j-th value
dimension — for each `(x, y)` group in order, `reduce_fn` applied to the
group's values of that dimension ("aggregate by (X, Y) pair using a
first non-null reducer"). -/
def aggColumn (obj : Table) (j : Nat) : List Val :=
  (aggPairsOf obj).map (fun p =>
    reduce_fn (((concatRowsOf obj).filter
        (fun r => rowX r == p.1 && rowY r == p.2)).map
      (fun r => (r.drop 2).getD j Val.nan)))

/-- `np.reshape` of a flat column into an `h × w` row-major matrix. -/
def reshape2 (h w : Nat) (flat : List Val) : List (List Val) :=
  (List.range h).map (fun i => (flat.drop (i * w)).take w)

/-- The gridded dataset produced by `_process`: one coordinate array per
key dimension and one dense 2D array (y-major) per value dimension. -/
structure GridDataset where
  xdim : String
  ydim : String
  xs : List Val
  ys : List Val
  vdims : List String
  values : List (List (List Val))
deriving DecidableEq, Repr

/-- Result of the operation: either the gridded input returned unchanged,
or a freshly built gridded dataset. -/
inductive AggResult where
  | unchanged : Table → AggResult
  | grid : GridDataset → AggResult
deriving DecidableEq, Repr

deriving instance DecidableEq for Except

/-- Embedding of `categorical_aggregate2d._process`
(`src/holoviews/element/util.py` lines 82-141).  Python exceptions are
modelled by `Except.error` carrying the message: the two explicit
`ValueError`s of lines 90-94, the pandas "arrays must all be same
length" raised while constructing `dense_data` when the coordinate
columns (built from the reordered `d2keys`, line 126) disagree in length
with the `nsamples`-long NaN columns (line 129), and the numpy reshape
failure of line 140 when the aggregated column length differs from
`np.product(shape)`. -/
def process (obj : Table) : Except String AggResult :=
  if obj.gridded then .ok (.unchanged obj)
  else if obj.kdims.length > 2 then
    .error "Cannot aggregate more than two dimensions"
  else if obj.kdims.length + obj.vdims.length < 3 then
    .error "Must have at two dimensions to aggregate overand one value dimension to aggregate on."
  else
    let dims := obj.kdims ++ obj.vdims
    let nsamples := (d2keysOf obj).length * (d1keysOf obj).length
    if (densePairs obj).length ≠ nsamples then
      .error "arrays must all be same length"
    else if (aggPairsOf obj).length ≠ nsamples then
      .error "cannot reshape array"
    else
      .ok (.grid {
        xdim := dims.getD 0 "",
        ydim := dims.getD 1 "",
        xs := d1keysOf obj,
        ys := computeD2 obj,
        vdims := dims.drop 2,
        values := (List.range (nvdimsOf obj)).map (fun j =>
          reshape2 (d2keysOf obj).length (d1keysOf obj).length
            (aggColumn obj j)) })

/-- The docstring example of `categorical_aggregate2d`:
`Table([('USA', 2000, 282.2), ('UK', 2005, 58.89)],
kdims=['Country', 'Year'], vdims=['Population'])`. -/
def exampleC9 : Table :=
  { kdims := ["Country", "Year"], vdims := ["Population"],
    rows := [[.str "USA", .num 2000, .num 282.2],
             [.str "UK", .num 2005, .num 58.89]],
    gridded := false }

/-!
### Helper lemmas

Facts about `reduce_fn` and about how the `orderings` OrderedDict is
assembled, shared by the claim theorems below.
-/

theorem reduce_fn_eq_find (vs : List Val) :
    reduce_fn vs = ((vs.find? (fun v => !is_nan v)).getD .nan) := by
  induction vs with
  | nil => rfl
  | cons v vs ih =>
    cases h : is_nan v with
    | true => simp [reduce_fn, h, ih, List.find?]
    | false => simp [reduce_fn, h, List.find?]

theorem reduce_fn_replicate_nan (k : Nat) (vs : List Val) :
    reduce_fn (List.replicate k .nan ++ vs) = reduce_fn vs := by
  induction k with
  | zero => rfl
  | succ k ih => simpa [List.replicate_succ, reduce_fn, is_nan] using ih

theorem setEntry_mem {k : Val} {v : List Val} {od : List (Val × List Val)}
    {e : Val × List Val} (h : e ∈ setEntry k v od) : e = (k, v) ∨ e ∈ od := by
  induction od with
  | nil =>
    simp only [setEntry, List.mem_singleton] at h
    exact Or.inl h
  | cons hd tl ih =>
    simp only [setEntry] at h
    split at h
    · rcases List.mem_cons.mp h with he | htl
      · exact Or.inl he
      · exact Or.inr (List.mem_cons_of_mem hd htl)
    · rcases List.mem_cons.mp h with he | htl
      · exact Or.inr (he ▸ List.mem_cons_self hd tl)
      · rcases ih htl with he | hod
        · exact Or.inl he
        · exact Or.inr (List.mem_cons_of_mem hd hod)

theorem foldl_setEntry_mem (ps : List (Val × Val)) (od : List (Val × List Val))
    (e : Val × List Val)
    (h : e ∈ ps.foldl (fun acc p => setEntry p.1 [p.2] acc) od) :
    e ∈ od ∨ ∃ p ∈ ps, e = (p.1, [p.2]) := by
  induction ps generalizing od with
  | nil => exact Or.inl h
  | cons q ps ih =>
    rcases ih _ h with h' | ⟨p, hp, he⟩
    · rcases setEntry_mem h' with he | hod
      · exact Or.inr ⟨q, List.mem_cons_self q ps, he⟩
      · exact Or.inl hod
    · exact Or.inr ⟨p, List.mem_cons_of_mem q hp, he⟩

theorem addGroup_mem {od : List (Val × List Val)} {g : List Val}
    {e : Val × List Val} (h : e ∈ addGroupOrderings od g) :
    e ∈ od ∨ (∃ v, g = [v] ∧ e = (v, [])) ∨
      ∃ p ∈ consecutivePairs g, e = (p.1, [p.2]) := by
  rcases g with _ | ⟨a, _ | ⟨b, rest⟩⟩
  · simp only [addGroupOrderings, consecutivePairs, List.foldl_nil] at h
    exact Or.inl h
  · simp only [addGroupOrderings] at h
    rcases setEntry_mem h with he | hod
    · exact Or.inr (Or.inl ⟨a, rfl, he⟩)
    · exact Or.inl hod
  · simp only [addGroupOrderings] at h
    rcases foldl_setEntry_mem _ _ _ h with hod | ⟨p, hp, he⟩
    · exact Or.inl hod
    · exact Or.inr (Or.inr ⟨p, hp, he⟩)

theorem buildOrderings_mem (gs : List (List Val)) (od : List (Val × List Val))
    (e : Val × List Val) (h : e ∈ gs.foldl addGroupOrderings od) :
    e ∈ od ∨ ∃ g ∈ gs, ((∃ v, g = [v] ∧ e = (v, [])) ∨
      ∃ p ∈ consecutivePairs g, e = (p.1, [p.2])) := by
  induction gs generalizing od with
  | nil => exact Or.inl h
  | cons g gs ih =>
    rcases ih _ h with h' | ⟨g', hg', hc⟩
    · rcases addGroup_mem h' with hod | hc
      · exact Or.inl hod
      · exact Or.inr ⟨g, List.mem_cons_self g gs, hc⟩
    · exact Or.inr ⟨g', List.mem_cons_of_mem g hg', hc⟩

/-!
### Concrete inputs used by the claims
-/

/-- Failing input for C1: a valid table (2 key + 1 value dimension, not
gridded) whose partitions are `[1, 2]` under x = "B" and `[1, 3]` under
x = "A"; the second partition's dict assignment overwrites the entry for
y = 1, so y = 2 disappears from the precedence graph. -/
def exC1 : Table :=
  { kdims := ["X", "Y"], vdims := ["V"],
    rows := [[.str "B", .num 1, .num 10], [.str "B", .num 2, .num 20],
             [.str "A", .num 1, .num 30], [.str "A", .num 3, .num 40]],
    gridded := false }

/-- Failing input for C2: same shape as `exC1` with numeric x keys. -/
def exC2 : Table :=
  { kdims := ["X", "Y"], vdims := ["V"],
    rows := [[.num 9, .num 1, .num 1], [.num 9, .num 2, .num 2],
             [.num 7, .num 1, .num 3], [.num 7, .num 3, .num 4]],
    gridded := false }

/-- Counterexample input for C3: partitions `[3, 1]` (x = 6, not
naturally sorted) and `[3, 2]` (x = 5); the local orders are acyclic but
the second assignment to `orderings[3]` erases the first partition's
edge 3 → 1. -/
def exC3 : Table :=
  { kdims := ["X", "Y"], vdims := ["V"],
    rows := [[.num 6, .num 3, .num 0], [.num 6, .num 1, .num 0],
             [.num 5, .num 3, .num 0], [.num 5, .num 2, .num 0]],
    gridded := false }

/-- Failing input for C4: raw unique y values `[1, 2, 3]` are sorted
ascending and both partitions (`[1, 2]` under x = 2 and `[1, 3]` under
x = 1) are sorted ascending, but the unique x values `[2, 1]` are not,
so the topological branch runs and loses y = 2. -/
def exC4 : Table :=
  { kdims := ["X", "Y"], vdims := ["V"],
    rows := [[.num 2, .num 1, .num 10], [.num 2, .num 2, .num 20],
             [.num 1, .num 1, .num 30], [.num 1, .num 3, .num 40]],
    gridded := false }

/-- Concrete table for the C3 witness: one partition `[1, 2]`. -/
def wtC3 : Table :=
  { kdims := ["X", "Y"], vdims := ["V"],
    rows := [[.num 7, .num 1, .num 0], [.num 7, .num 2, .num 0]],
    gridded := false }

/-- Concrete gridded table for the C6 witness. -/
def wtC6 : Table :=
  { kdims := ["A", "B"], vdims := ["V"], rows := [], gridded := true }

/-- Concrete table with three key dimensions for the C7 witness. -/
def wtC7 : Table :=
  { kdims := ["A", "B", "C"], vdims := ["V"],
    rows := [[.num 1, .num 2, .num 3, .num 4]], gridded := false }

/-- Concrete table with one key and one value dimension for the C8
witness. -/
def wtC8 : Table :=
  { kdims := ["A"], vdims := ["V"],
    rows := [[.num 1, .num 2]], gridded := false }

/-- Concrete gridded table with three key dimensions and no value
dimension for the C10 witness: it violates both dimension checks. -/
def wtC10 : Table :=
  { kdims := ["A", "B", "C"], vdims := [], rows := [], gridded := true }

/-!
### Claim theorems
-/

/-- C1 (code bug): the claim promises that for every valid input (2 key
dimensions, at least 1 value dimension, not gridded) the output grid
holds every input row's value at its coordinate pair and NaN at every
absent cross-product pair.  On `exC1` the overwritten `orderings` dict
loses the y value 2, `sort_topologically` returns only `[1, 3]`, and the
dense table's coordinate columns (length 4) disagree with its
`nsamples = 6` NaN value columns, so constructing `dense_data` raises
instead of producing any grid. -/
theorem c1_crash_on_valid_input :
    exC1.gridded = false ∧ exC1.kdims.length = 2 ∧ exC1.vdims.length = 1 ∧
    process exC1 = .error "arrays must all be same length" :=
  ⟨rfl, rfl, rfl, rfl⟩

/-- C2 (code bug): the claim promises an output value array of shape
(|unique Y|, |unique X|) = (3, 2) for every valid 2-key/1-value input,
but on `exC2` the operation raises while building the dense table, so no
gridded output of any shape exists. -/
theorem c2_crash_no_shape :
    exC2.gridded = false ∧ exC2.kdims.length = 2 ∧ exC2.vdims.length = 1 ∧
    (d2keysOf exC2).length = 3 ∧ (d1keysOf exC2).length = 2 ∧
    process exC2 = .error "arrays must all be same length" :=
  ⟨rfl, rfl, rfl, rfl, rfl, rfl⟩

/-- C3 counterexample: on `exC3` the partition y sequences are acyclic
and not all naturally sorted, yet the precedence graph does NOT contain
an edge from every observed y value to its immediate successor in every
partition — the first partition's consecutive pair (3, 1) has no
corresponding edge, because the second partition's assignment
`orderings[3] = [2]` overwrote it. -/
theorem c3_counterexample :
    ((groupYsOf exC3).all (fun v => v.length == 1 || sortVals v == v) = false) ∧
    ¬ (∀ g ∈ groupYsOf exC3, ∀ p ∈ consecutivePairs g,
        p.2 ∈ successors (orderingsOf exC3) p.1) := by
  refine ⟨rfl, ?_⟩
  decide

/-- C3 (amended): every entry of the precedence dict built by
`categorical_aggregate2d` has at most one successor, and every recorded
edge joins some observed y value to its immediate successor in some
partition; the dict need not contain every partition's successor edges,
since each assignment overwrites the previous entry for the same
y value. -/
theorem c3_edges_sound (obj : Table) (a : Val) (bs : List Val)
    (h : (a, bs) ∈ orderingsOf obj) :
    bs.length ≤ 1 ∧
      ∀ b ∈ bs, ∃ g ∈ groupYsOf obj, (a, b) ∈ consecutivePairs g := by
  have hm := buildOrderings_mem (groupYsOf obj) [] (a, bs) h
  rcases hm with h0 | ⟨g, hg, hc⟩
  · cases h0
  · rcases hc with ⟨v, _, he⟩ | ⟨p, hp, he⟩
    · injection he with h1 h2
      subst h1; subst h2
      exact ⟨by simp, by simp⟩
    · injection he with h1 h2
      subst h1; subst h2
      refine ⟨by simp, ?_⟩
      intro b hb
      rcases List.mem_singleton.mp hb with rfl
      exact ⟨g, hg, hp⟩

/-- Witness for C3's amended theorem: on `wtC3` the dict entry
`(1, [2])` exists and its edge matches the consecutive pair (1, 2) of
the only partition. -/
theorem c3_edges_sound_witness :
    (Val.num 1, [Val.num 2]) ∈ orderingsOf wtC3 ∧
    ([Val.num 2].length ≤ 1 ∧
      ∀ b ∈ [Val.num 2], ∃ g ∈ groupYsOf wtC3,
        (Val.num 1, b) ∈ consecutivePairs g) :=
  ⟨by decide, c3_edges_sound wtC3 (Val.num 1) [Val.num 2] (by decide)⟩

/-- C4 (code bug): on `exC4` the raw unique y values are already sorted
ascending and every partition's y sequence is sorted ascending, yet the
output's y coordinate array does not equal the ascending sort — because
the unique x values are unsorted the topological branch runs, the
overwritten dict drops y = 2, and building the dense table raises
instead of producing output. -/
theorem c4_crash_despite_sorted_y :
    sortVals (d2keysOf exC4) = d2keysOf exC4 ∧
    ((groupYsOf exC4).all (fun v => sortVals v == v) = true) ∧
    exC4.gridded = false ∧ exC4.kdims.length = 2 ∧ exC4.vdims.length = 1 ∧
    process exC4 = .error "arrays must all be same length" :=
  ⟨rfl, rfl, rfl, rfl, rfl, rfl⟩

/-- C5: the reducer `reduce_fn` returns, for any sequence of values, the
first value that is not the NaN null marker (and NaN when every value is
NaN); prepending any number of NaN entries — as the dense NaN-filled
table concatenated before the sparse data does — never changes the
result, so genuine data values override the inserted nulls; and the
concatenated table is exactly the dense rows followed by the original
rows. -/
theorem c5_first_non_null_reducer :
    (∀ vs : List Val, reduce_fn vs = ((vs.find? (fun v => !is_nan v)).getD .nan)) ∧
    (∀ (k : Nat) (vs : List Val),
      reduce_fn (List.replicate k .nan ++ vs) = reduce_fn vs) ∧
    (∀ obj : Table, concatRowsOf obj = denseRowsOf obj ++ obj.rows) :=
  ⟨reduce_fn_eq_find, reduce_fn_replicate_nan, fun _ => rfl⟩

/-- C6: an input dataset already stored in a gridded representation is
returned unchanged (object identity modelled as value identity), making
the operation a no-op on gridded inputs. -/
theorem c6_gridded_identity (obj : Table) (h : obj.gridded = true) :
    process obj = .ok (.unchanged obj) := by
  simp [process, h]

/-- Witness for C6 at the concrete gridded table `wtC6`. -/
theorem c6_gridded_identity_witness :
    process wtC6 = .ok (.unchanged wtC6) :=
  c6_gridded_identity wtC6 rfl

/-- C7: a non-gridded input declaring more than two key dimensions makes
`categorical_aggregate2d` raise the ValueError "Cannot aggregate more
than two dimensions" and produce no output; the failure depends only on
the input. -/
theorem c7_too_many_kdims (obj : Table) (hg : obj.gridded = false)
    (hk : 2 < obj.kdims.length) :
    process obj = .error "Cannot aggregate more than two dimensions" := by
  simp [process, hg, hk]

/-- Witness for C7 at the concrete three-key table `wtC7`. -/
theorem c7_too_many_kdims_witness :
    process wtC7 = .error "Cannot aggregate more than two dimensions" :=
  c7_too_many_kdims wtC7 rfl (by decide)

/-- C8: a non-gridded input with fewer than three dimensions in total
makes `categorical_aggregate2d` raise the ValueError of lines 93-94 and
produce no output. -/
theorem c8_insufficient_dims (obj : Table) (hg : obj.gridded = false)
    (hd : obj.kdims.length + obj.vdims.length < 3) :
    process obj =
      .error "Must have at two dimensions to aggregate overand one value dimension to aggregate on." := by
  have hk : ¬ 2 < obj.kdims.length := by omega
  simp [process, hg, hk, hd]

/-- Witness for C8 at the concrete one-key/one-value table `wtC8`. -/
theorem c8_insufficient_dims_witness :
    process wtC8 =
      .error "Must have at two dimensions to aggregate overand one value dimension to aggregate on." :=
  c8_insufficient_dims wtC8 rfl (by decide)

/-- C9: on the docstring example — rows (USA, 2000, 282.2) and
(UK, 2005, 58.89) with key dimensions Country, Year and value dimension
Population — the output is a 2×2 grid with x coordinates [USA, UK] in
first-occurrence order, y coordinates [2000, 2005], and value array
[[282.2, NaN], [NaN, 58.89]]. -/
theorem c9_docstring_example : process exampleC9 = .ok (.grid {
    xdim := "Country", ydim := "Year",
    xs := [.str "USA", .str "UK"],
    ys := [.num 2000, .num 2005],
    vdims := ["Population"],
    values := [[[.num 282.2, .nan], [.nan, .num 58.89]]] }) := rfl

/-- C10: the gridded-representation check precedes all dimension
validation — a gridded input is returned unchanged even when it declares
more than two key dimensions or fewer than three total dimensions. -/
theorem c10_gridded_check_first (obj : Table) (h : obj.gridded = true)
    (_hbad : 2 < obj.kdims.length ∨ obj.kdims.length + obj.vdims.length < 3) :
    process obj = .ok (.unchanged obj) := by
  simp [process, h]

/-- Witness for C10 at `wtC10`, which has three key dimensions (and also
fewer than three total dimensions). -/
theorem c10_gridded_check_first_witness :
    process wtC10 = .ok (.unchanged wtC10) :=
  c10_gridded_check_first wtC10 rfl (Or.inl (by decide))

end CatAgg2D
